import Mathlib

/-!
Verification of the `internal/config` package of `tarcis-io/mega_old7`.

The package defines string-valued enum types (`LogLevel`, `LogFormat`,
`LogOutput`), documented defaults, a `Config` value object with nine
read-only accessors, and a `loader` whose field-resolution methods are
stubs: they ignore the process environment and return the zero value of
their type, and `appendError` is never called during a load pass.
`New` builds a `Config` from the loader's nine field methods and returns
it together with `loader.Err()`, which joins the accumulated errors via
Go's `errors.Join` semantics.

The embedding below mirrors that source.  The process environment is a
partial map from variable names to string values; Go's nilable `error`
values are `Option GoError`.
-/

/-- `LogLevel` represents the severity or verbosity of log records. -/
abbrev LogLevel := String

/-- `LogFormat` represents the encoding style of log records. -/
abbrev LogFormat := String

/-- `LogOutput` represents the destination stream of log records. -/
abbrev LogOutput := String

/-- Go's `time.Duration`: a count of nanoseconds. -/
abbrev Duration := Int

def LogLevelDebug : LogLevel := "debug"

def LogLevelInfo : LogLevel := "info"

def LogLevelWarn : LogLevel := "warn"

def LogLevelError : LogLevel := "error"

def LogFormatText : LogFormat := "text"

def LogFormatJSON : LogFormat := "json"

def LogOutputStdout : LogOutput := "stdout"

def LogOutputStderr : LogOutput := "stderr"

def EnvLogLevel : String := "LOG_LEVEL"

def EnvLogFormat : String := "LOG_FORMAT"

def EnvLogOutput : String := "LOG_OUTPUT"

def EnvServerAddress : String := "SERVER_ADDRESS"

def EnvServerReadTimeout : String := "SERVER_READ_TIMEOUT"

def EnvServerReadHeaderTimeout : String := "SERVER_READ_HEADER_TIMEOUT"

def EnvServerWriteTimeout : String := "SERVER_WRITE_TIMEOUT"

def EnvServerIdleTimeout : String := "SERVER_IDLE_TIMEOUT"

def EnvServerShutdownTimeout : String := "SERVER_SHUTDOWN_TIMEOUT"

/-- `time.Second` in nanoseconds. -/
def timeSecond : Duration := 1000000000

def DefaultLogLevel : LogLevel := LogLevelInfo

def DefaultLogFormat : LogFormat := LogFormatText

def DefaultLogOutput : LogOutput := LogOutputStdout

def DefaultServerAddress : String := "localhost:8080"

def DefaultServerReadTimeout : Duration := 5 * timeSecond

def DefaultServerReadHeaderTimeout : Duration := 2 * timeSecond

def DefaultServerWriteTimeout : Duration := 10 * timeSecond

def DefaultServerIdleTimeout : Duration := 60 * timeSecond

def DefaultServerShutdownTimeout : Duration := 15 * timeSecond

def TCPPortMin : Int := 0

def TCPPortMax : Int := 65535

/-- The process environment: a lookup from variable names to optional values
(Go's `os.Getenv` returns the empty string for unset variables; modelling with
`Option` keeps unset distinguishable from empty, which is all the claims need). -/
abbrev Env := String → Option String

/-- A non-nil Go `error` value: a plain message, the result of
`errors.Join` on a list of non-nil errors, or a `fmt.Errorf("...: %w", err)`
wrapper. -/
inductive GoError where
  | mk : String → GoError
  | joined : List GoError → GoError
  | wrapped : String → GoError → GoError

/-- `Config` represents the immutable application configuration
(nine unexported fields, source lines 189-202). -/
structure Config where
  logLevel : LogLevel
  logFormat : LogFormat
  logOutput : LogOutput
  serverAddress : String
  serverReadTimeout : Duration
  serverReadHeaderTimeout : Duration
  serverWriteTimeout : Duration
  serverIdleTimeout : Duration
  serverShutdownTimeout : Duration
deriving DecidableEq

def Config.LogLevel (c : Config) : LogLevel := c.logLevel

def Config.LogFormat (c : Config) : LogFormat := c.logFormat

def Config.LogOutput (c : Config) : LogOutput := c.logOutput

def Config.ServerAddress (c : Config) : String := c.serverAddress

def Config.ServerReadTimeout (c : Config) : Duration := c.serverReadTimeout

def Config.ServerReadHeaderTimeout (c : Config) : Duration := c.serverReadHeaderTimeout

def Config.ServerWriteTimeout (c : Config) : Duration := c.serverWriteTimeout

def Config.ServerIdleTimeout (c : Config) : Duration := c.serverIdleTimeout

def Config.ServerShutdownTimeout (c : Config) : Duration := c.serverShutdownTimeout

/-- The transient `loader`: its only state is the accumulated list of error
values.  Go's `error` interface is nilable, so the list elements are
`Option GoError`. -/
structure Loader where
  errs : List (Option GoError)

def newLoader : Loader := ⟨[]⟩

/-- Source lines 283-285: the method body is `return ""`; it takes no input
and never touches the environment.  The `Env` parameter records that the
process environment was available to it and is ignored. -/
def Loader.logLevel (_ : Loader) (_ : Env) : LogLevel := ""

/-- Source lines 287-289: `return ""`. -/
def Loader.logFormat (_ : Loader) (_ : Env) : LogFormat := ""

/-- Source lines 291-293: `return ""`. -/
def Loader.logOutput (_ : Loader) (_ : Env) : LogOutput := ""

/-- Source lines 295-297: `return ""`. -/
def Loader.serverAddress (_ : Loader) (_ : Env) : String := ""

/-- Source lines 299-301: `return 0`. -/
def Loader.serverReadTimeout (_ : Loader) (_ : Env) : Duration := 0

/-- Source lines 303-305: `return 0`. -/
def Loader.serverReadHeaderTimeout (_ : Loader) (_ : Env) : Duration := 0

/-- Source lines 307-309: `return 0`. -/
def Loader.serverWriteTimeout (_ : Loader) (_ : Env) : Duration := 0

/-- Source lines 311-313: `return 0`. -/
def Loader.serverIdleTimeout (_ : Loader) (_ : Env) : Duration := 0

/-- Source lines 315-317: `return 0`. -/
def Loader.serverShutdownTimeout (_ : Loader) (_ : Env) : Duration := 0

/-- `l.errs = append(l.errs, err)` (source lines 319-321). -/
def Loader.appendError (l : Loader) (err : Option GoError) : Loader :=
  ⟨l.errs ++ [err]⟩

/-- Go's `errors.Join`: nil error values are discarded; the result is nil when
every value is nil, and otherwise wraps the non-nil errors in order. -/
def joinErrors (errs : List (Option GoError)) : Option GoError :=
  match errs.filterMap id with
  | [] => none
  | e :: es => some (GoError.joined (e :: es))

/-- `loader.Err` (source lines 323-328): nil when no error was accumulated,
otherwise `errors.Join(l.errs...)`. -/
def Loader.Err (l : Loader) : Option GoError :=
  if l.errs.length = 0 then none else joinErrors l.errs

/-- `New` (source lines 209-226): build a fresh loader, populate every `Config`
field from the loader's field methods, and return `(nil, wrapped error)` when
`l.Err()` is non-nil, else `(cfg, nil)`.  The environment is threaded in so the
claims can quantify over it; the stub loader never consults it. -/
def New (env : Env) : Option Config × Option GoError :=
  let l := newLoader
  let cfg : Config :=
    { logLevel := l.logLevel env
      logFormat := l.logFormat env
      logOutput := l.logOutput env
      serverAddress := l.serverAddress env
      serverReadTimeout := l.serverReadTimeout env
      serverReadHeaderTimeout := l.serverReadHeaderTimeout env
      serverWriteTimeout := l.serverWriteTimeout env
      serverIdleTimeout := l.serverIdleTimeout env
      serverShutdownTimeout := l.serverShutdownTimeout env }
  match l.Err with
  | some err => (none, some (GoError.wrapped "failed to load config" err))
  | none => (some cfg, none)

/-- The environment in which every configuration variable is unset. -/
def emptyEnv : Env := fun _ => none

/-- Override one variable of an environment. -/
def setEnv (e : Env) (k v : String) : Env :=
  fun q => if q = k then some v else e q

/-- The `Config` that the stub loader produces on every call: empty strings
and zero durations. -/
def cfgZero : Config := ⟨"", "", "", "", 0, 0, 0, 0, 0⟩

/-- Membership in the closed set of accepted log levels, from the source's
`LogLevel` constants. -/
def validLogLevel (s : LogLevel) : Bool :=
  s == LogLevelDebug || s == LogLevelInfo || s == LogLevelWarn || s == LogLevelError

/-- C9: for every environment, including ones with invalid or unset variables,
`New` returns a non-nil `Config` and a nil error, and the returned `Config`'s
string accessors all return the empty string while all five timeout accessors
return 0; the stub loader never reads a variable or records an error, so
construction can never fail. -/
theorem c9_new_never_fails_and_returns_zero_config (env : Env) :
    New env = (some cfgZero, none) ∧
    cfgZero.LogLevel = "" ∧ cfgZero.LogFormat = "" ∧ cfgZero.LogOutput = "" ∧
    cfgZero.ServerAddress = "" ∧ cfgZero.ServerReadTimeout = 0 ∧
    cfgZero.ServerReadHeaderTimeout = 0 ∧ cfgZero.ServerWriteTimeout = 0 ∧
    cfgZero.ServerIdleTimeout = 0 ∧ cfgZero.ServerShutdownTimeout = 0 :=
  ⟨rfl, rfl, rfl, rfl, rfl, rfl, rfl, rfl, rfl, rfl⟩

/-- C1 (code bug): at the failing input where all nine configuration variables
are unset, `New` succeeds, but every accessor of the returned `Config` differs
from the documented default the claim requires: the stub loader returns the
zero value of each type instead of substituting the defaults. -/
theorem c1_unset_env_yields_zero_values_not_defaults :
    New emptyEnv = (some cfgZero, none) ∧
    cfgZero.LogLevel ≠ DefaultLogLevel ∧
    cfgZero.LogFormat ≠ DefaultLogFormat ∧
    cfgZero.LogOutput ≠ DefaultLogOutput ∧
    cfgZero.ServerAddress ≠ DefaultServerAddress ∧
    cfgZero.ServerReadTimeout ≠ DefaultServerReadTimeout ∧
    cfgZero.ServerReadHeaderTimeout ≠ DefaultServerReadHeaderTimeout ∧
    cfgZero.ServerWriteTimeout ≠ DefaultServerWriteTimeout ∧
    cfgZero.ServerIdleTimeout ≠ DefaultServerIdleTimeout ∧
    cfgZero.ServerShutdownTimeout ≠ DefaultServerShutdownTimeout := by
  refine ⟨rfl, ?_, ?_, ?_, ?_, ?_, ?_, ?_, ?_, ?_⟩ <;> decide

/-- C2 (code bug): with LOG_LEVEL set to the invalid value "verbose", `New`
returns a non-nil `Config` together with a nil error, yet the exposed
`Config`'s log level (the empty string) is not a member of the accepted set
{debug, info, warn, error}: an invalid `Config` is exposed to the caller. -/
theorem c2_invalid_config_exposed_with_nil_error :
    New (setEnv emptyEnv EnvLogLevel "verbose") = (some cfgZero, none) ∧
    validLogLevel cfgZero.LogLevel = false :=
  ⟨rfl, by decide⟩

/-- C3 (code bug): with the two simultaneously invalid values
LOG_LEVEL="verbose" and SERVER_ADDRESS="bad", `New` does not fail at all: it
returns a non-nil `Config` and a nil error, so no composite error referencing
the two failures is produced. -/
theorem c3_two_invalid_variables_yield_no_error :
    New (setEnv (setEnv emptyEnv EnvLogLevel "verbose") EnvServerAddress "bad")
      = (some cfgZero, none) := rfl

/-- C4 (code bug): with LOG_LEVEL set to the invalid value "verbose", `New`
succeeds with a nil error instead of failing, and the resulting log level is
the empty string: neither the invalid value nor the default nor an error
mentioning LOG_LEVEL is produced. -/
theorem c4_invalid_log_level_not_rejected :
    New (setEnv emptyEnv EnvLogLevel "verbose") = (some cfgZero, none) ∧
    cfgZero.LogLevel = "" :=
  ⟨rfl, rfl⟩

/-- C5 (code bug): with SERVER_READ_TIMEOUT="not-a-duration" `New` succeeds
with a nil error instead of failing, and with SERVER_READ_TIMEOUT="5s" the
read-timeout accessor returns 0 rather than 5 seconds. -/
theorem c5_read_timeout_variable_ignored :
    New (setEnv emptyEnv EnvServerReadTimeout "not-a-duration")
      = (some cfgZero, none) ∧
    New (setEnv emptyEnv EnvServerReadTimeout "5s") = (some cfgZero, none) ∧
    cfgZero.ServerReadTimeout ≠ 5 * timeSecond :=
  ⟨rfl, rfl, by decide⟩

/-- C6 (code bug): with SERVER_ADDRESS carrying the out-of-range ports 65536
and -1, `New` succeeds with a nil error in both cases instead of failing with
a range error. -/
theorem c6_out_of_range_port_not_rejected :
    New (setEnv emptyEnv EnvServerAddress "localhost:65536")
      = (some cfgZero, none) ∧
    New (setEnv emptyEnv EnvServerAddress "localhost:-1")
      = (some cfgZero, none) :=
  ⟨rfl, rfl⟩

/-- C7: `Config` is immutable: each of the nine accessors is a pure projection
that returns exactly the scalar value the field received at construction time,
and the accessors are the only operations the package defines on `Config`, so
no operation mutates a field after construction. -/
theorem c7_accessors_return_construction_values
    (llv : LogLevel) (lf : LogFormat) (lo : LogOutput) (sa : String)
    (rt rht wt it st : Duration) :
    (Config.mk llv lf lo sa rt rht wt it st).LogLevel = llv ∧
    (Config.mk llv lf lo sa rt rht wt it st).LogFormat = lf ∧
    (Config.mk llv lf lo sa rt rht wt it st).LogOutput = lo ∧
    (Config.mk llv lf lo sa rt rht wt it st).ServerAddress = sa ∧
    (Config.mk llv lf lo sa rt rht wt it st).ServerReadTimeout = rt ∧
    (Config.mk llv lf lo sa rt rht wt it st).ServerReadHeaderTimeout = rht ∧
    (Config.mk llv lf lo sa rt rht wt it st).ServerWriteTimeout = wt ∧
    (Config.mk llv lf lo sa rt rht wt it st).ServerIdleTimeout = it ∧
    (Config.mk llv lf lo sa rt rht wt it st).ServerShutdownTimeout = st :=
  ⟨rfl, rfl, rfl, rfl, rfl, rfl, rfl, rfl, rfl⟩

/-- C8: loading is idempotent: for a fixed environment, any two successful
calls of `New` produce `Config` values whose nine accessor outputs are
pairwise identical; each call builds a fresh loader, so no hidden state can
change a later call's result. -/
theorem c8_new_is_idempotent (env : Env) (cfg1 cfg2 : Config)
    (e1 e2 : Option GoError)
    (h1 : New env = (some cfg1, e1)) (h2 : New env = (some cfg2, e2)) :
    cfg1.LogLevel = cfg2.LogLevel ∧
    cfg1.LogFormat = cfg2.LogFormat ∧
    cfg1.LogOutput = cfg2.LogOutput ∧
    cfg1.ServerAddress = cfg2.ServerAddress ∧
    cfg1.ServerReadTimeout = cfg2.ServerReadTimeout ∧
    cfg1.ServerReadHeaderTimeout = cfg2.ServerReadHeaderTimeout ∧
    cfg1.ServerWriteTimeout = cfg2.ServerWriteTimeout ∧
    cfg1.ServerIdleTimeout = cfg2.ServerIdleTimeout ∧
    cfg1.ServerShutdownTimeout = cfg2.ServerShutdownTimeout := by
  have h : (some cfg1, e1) = ((some cfg2, e2) : Option Config × Option GoError) :=
    h1.symm.trans h2
  have hc : cfg1 = cfg2 := by
    have := congrArg Prod.fst h
    simpa using this
  subst hc
  exact ⟨rfl, rfl, rfl, rfl, rfl, rfl, rfl, rfl, rfl⟩

/-- C8 witness: the idempotence theorem applied at the environment with no
overrides and the concrete `Config` both calls return. -/
theorem c8_new_is_idempotent_witness :
    New emptyEnv = (some cfgZero, none) ∧
    (cfgZero.LogLevel = cfgZero.LogLevel ∧
     cfgZero.LogFormat = cfgZero.LogFormat ∧
     cfgZero.LogOutput = cfgZero.LogOutput ∧
     cfgZero.ServerAddress = cfgZero.ServerAddress ∧
     cfgZero.ServerReadTimeout = cfgZero.ServerReadTimeout ∧
     cfgZero.ServerReadHeaderTimeout = cfgZero.ServerReadHeaderTimeout ∧
     cfgZero.ServerWriteTimeout = cfgZero.ServerWriteTimeout ∧
     cfgZero.ServerIdleTimeout = cfgZero.ServerIdleTimeout ∧
     cfgZero.ServerShutdownTimeout = cfgZero.ServerShutdownTimeout) :=
  ⟨rfl, c8_new_is_idempotent emptyEnv cfgZero cfgZero none none rfl rfl⟩

/-- C10 counterexample: a loader that recorded a single nil error value via
`appendError` has a non-empty accumulated list, yet `Err` returns nil,
because Go's `errors.Join` discards nil values and returns nil when every
value is nil; this refutes the claimed "nil iff the list is empty". -/
theorem c10_counterexample_nil_error_recorded :
    (newLoader.appendError none).errs ≠ [] ∧
    (newLoader.appendError none).Err = none :=
  ⟨fun h => List.cons_ne_nil none [] h, rfl⟩

/-- C10 (amended): `Err` returns nil if and only if the list of non-nil
errors accumulated by `appendError` is empty; otherwise it returns the join
of exactly those non-nil errors, in the order they were appended. -/
theorem c10_err_joins_accumulated_nonnil_errors (l : Loader) :
    (l.Err = none ↔ l.errs.filterMap id = []) ∧
    (∀ e es, l.errs.filterMap id = e :: es →
      l.Err = some (GoError.joined (e :: es))) := by
  rcases l with ⟨errs⟩
  constructor
  · by_cases h : errs.length = 0
    · have he : errs = [] := List.length_eq_zero.mp h
      subst he
      simp [Loader.Err, joinErrors]
    · simp only [Loader.Err, joinErrors, if_neg h]
      cases hf : errs.filterMap id <;> simp [hf]
  · intro e es hf
    have hne : errs.length ≠ 0 := by
      intro h
      have he : errs = [] := List.length_eq_zero.mp h
      subst he
      simp at hf
    simp only [Loader.Err, joinErrors, if_neg hne, hf]

/-- C10 witness: the amended theorem applied to a loader holding one non-nil
error, evaluated concretely. -/
theorem c10_err_joins_accumulated_nonnil_errors_witness :
    (newLoader.appendError (some (GoError.mk "boom"))).errs.filterMap id
      = [GoError.mk "boom"] ∧
    (newLoader.appendError (some (GoError.mk "boom"))).Err
      = some (GoError.joined [GoError.mk "boom"]) :=
  ⟨rfl,
    (c10_err_joins_accumulated_nonnil_errors
      (newLoader.appendError (some (GoError.mk "boom")))).2
      (GoError.mk "boom") [] rfl⟩
